import Mathlib

/-
Verification of the db-testtools transaction-isolation and engine-lifecycle
design against its source (dbtesttools/fixtures.py, dbtesttools/engines/).
The Python classes are shallowly embedded: stateful methods become explicit
state-passing functions over small records, and side effects are recorded as
explicit effect lists so that frame properties can be stated.
-/

namespace DbTestTools

/-- Exception classes that appear in the source, plus the three error names
used by the design document but absent from the source tree
(startupTimeoutError, configurationError, unknownEngineDriver). The latter
three are modelled from the spec wording only, so that claims naming them can
be stated and compared against what the code actually raises. -/
inductive PyExc where
  | operationalError
  | attributeError
  | fileNotFoundError
  | imageNotFound
  | startupTimeoutError
  | configurationError
  | unknownEngineDriver
  | otherExc (n : Nat)
deriving DecidableEq, Repr

/-- Observable side effects of DatabaseResource.rollback_transaction and of
the engine rebuild sequence in fixtures.py. -/
inductive Effect where
  | fixtureCleanUp
  | fixtureSetUp
  | tablesCreated
  | txnRollback
deriving DecidableEq, Repr

/-- State of one DatabaseResource (fixtures.py, class DatabaseResource).
Identities are modelled as natural numbers drawn from a fresh supply:
dbId is the identity of the current EngineFixture object, serverId the
identity of the server process it owns, schemaOnDb the engine the schema
was last materialized against. dbCleanups is the length of the fixture
private _cleanups list; sessionId is the _session_id attribute and
sessionIdNext the next value the itertools.count iterator will yield. -/
structure DatabaseResource where
  dbId : Nat
  dbHasSavepoint : Bool
  dbCleanups : Nat
  freshId : Nat
  sessionId : Nat
  sessionIdNext : Nat
  serverId : Nat
  schemaOnDb : Nat
deriving DecidableEq, Repr

/-- Embeds DatabaseResource.initialize_engine (fixtures.py): pick and set up a
brand new engine fixture (fresh identity, which registers one cleanup),
restart the session id iterator at count(1) and consume its first value, and
create the tables against the new engine. The engine fixture class, and hence
dbHasSavepoint, is fixed for the lifetime of the resource. -/
def init_engine (r : DatabaseResource) : DatabaseResource × List Effect :=
  ({ dbId := r.freshId
     dbHasSavepoint := r.dbHasSavepoint
     dbCleanups := 1
     freshId := r.freshId + 1
     sessionId := 1
     sessionIdNext := 2
     serverId := r.freshId
     schemaOnDb := r.freshId },
   [Effect.fixtureSetUp, Effect.tablesCreated])

/-- Embeds fixture.cleanUp(): runs and drains the pending cleanup list. -/
def clean_up_fixture (r : DatabaseResource) : DatabaseResource :=
  { r with dbCleanups := 0 }

/-- Embeds DatabaseResource.rollback_transaction (fixtures.py). When the
engine fixture cannot do savepoints, it first calls self.db.cleanUp() but
only when self.db._cleanups is non-empty, then re-runs the engine
initialization sequence; otherwise it only rolls back the supplied outer
transaction handle. -/
def rollback_transaction (r : DatabaseResource) : DatabaseResource × List Effect :=
  if !r.dbHasSavepoint then
    let pre : DatabaseResource × List Effect :=
      if r.dbCleanups ≠ 0 then (clean_up_fixture r, [Effect.fixtureCleanUp]) else (r, [])
    let post := init_engine pre.1
    (post.1, pre.2 ++ post.2)
  else
    (r, [Effect.txnRollback])

/-- Embeds DatabaseResource.next_session_id: advance the itertools.count
iterator, store the value in _session_id and return it. -/
def next_session_id (r : DatabaseResource) : Nat × DatabaseResource :=
  (r.sessionIdNext,
   { r with sessionId := r.sessionIdNext, sessionIdNext := r.sessionIdNext + 1 })

/-- Embeds DatabaseResource.make: the resource is created and its engine is
initialized once. The base state before make has identity 0 and fresh
supply starting at 1. -/
def make_resource (hasSp : Bool) : DatabaseResource :=
  (init_engine
    { dbId := 0, dbHasSavepoint := hasSp, dbCleanups := 0, freshId := 1,
      sessionId := 0, sessionIdNext := 1, serverId := 0, schemaOnDb := 0 }).1

/-- Operations on a DatabaseResource that a test run interleaves: a call to
next_session_id, or a rollback_transaction at test teardown. -/
inductive ResOp where
  | nextId
  | rollback
deriving DecidableEq, Repr

/-- Runs a sequence of resource operations and collects the values returned
by the next_session_id calls, in order. -/
def run_session_ids : DatabaseResource → List ResOp → List Nat
  | _, [] => []
  | r, ResOp.nextId :: ops =>
      (next_session_id r).1 :: run_session_ids (next_session_id r).2 ops
  | r, ResOp.rollback :: ops => run_session_ids (rollback_transaction r).1 ops

/-- Outcome of the self.session.close() call at the top of
SessionFixture.clean_session. -/
inductive CloseOutcome where
  | ok
  | raises (e : PyExc)
deriving DecidableEq, Repr

/-- Steps performed by SessionFixture.clean_session, in order. -/
inductive CleanStep where
  | sessionCloseTried
  | rollbackStep (e : Effect)
  | connectionClose
  | sessionIdBump
deriving DecidableEq, Repr

/-- Tail of SessionFixture.clean_session after the try/except around
session.close(): roll back (or rebuild) via the database resource, return the
checked out connection to the pool, and bump the session id. -/
def clean_session_rest (r : DatabaseResource) :
    Except PyExc (DatabaseResource × List CleanStep) :=
  let rb := rollback_transaction r
  let nxt := next_session_id rb.1
  Except.ok (nxt.2,
    CleanStep.sessionCloseTried ::
      rb.2.map CleanStep.rollbackStep
        ++ [CleanStep.connectionClose, CleanStep.sessionIdBump])

/-- Embeds SessionFixture.clean_session (fixtures.py): session.close() is
attempted inside a try block whose except clause catches exactly
sqlalchemy.exc.OperationalError and passes; any other exception class
propagates and none of the remaining teardown steps run. -/
def clean_session (close : CloseOutcome) (r : DatabaseResource) :
    Except PyExc (DatabaseResource × List CleanStep) :=
  match close with
  | CloseOutcome.ok => clean_session_rest r
  | CloseOutcome.raises PyExc.operationalError => clean_session_rest r
  | CloseOutcome.raises e => Except.error e

/-- An after_transaction_end event on the session: whether the ended
transaction was nested, and whether its immediate parent was nested. -/
structure TxnEnd where
  nested : Bool
  parentNested : Bool
deriving DecidableEq, Repr

/-- What the restart_savepoint handler did during one invocation. -/
structure HandlerActions where
  expireAll : Bool
  beganNested : Bool
deriving DecidableEq, Repr

/-- Embeds the restart_savepoint listener registered by
SessionFixture.set_up_savepoint (fixtures.py). In future (v2) mode it checks
only whether self.savepoint.is_active and restarts the connection level
savepoint when it is not, never expiring the session; in legacy (v1) mode it
checks whether the ended transaction was nested with a non-nested parent and
then calls session.expire_all() followed by session.begin_nested(). -/
def restart_savepoint (future : Bool) (savepointActive : Bool) (t : TxnEnd) :
    HandlerActions :=
  if future then
    if !savepointActive then { expireAll := false, beganNested := true }
    else { expireAll := false, beganNested := false }
  else if t.nested && !t.parentNested then
    { expireAll := true, beganNested := true }
  else { expireAll := false, beganNested := false }

/-- Embeds the retry decorator from the retry package as used on
wait_for_pg_start: retryCall probe delay made tries attempts the probe up to
tries times, sleeping delay between consecutive attempts; it retries only
psycopg2.OperationalError and re-raises the final failure unchanged. Returns
(total attempts made, total sleep performed, none for success or the raised
exception). The probe is indexed by the attempt number. -/
def retryCall (probe : Nat → Option PyExc) (delay : Nat) :
    Nat → Nat → Nat × Nat × Option PyExc
  | made, 0 => (made, 0, none)
  | made, tries + 1 =>
    match probe made with
    | none => (made + 1, 0, none)
    | some PyExc.operationalError =>
        if tries = 0 then (made + 1, 0, some PyExc.operationalError)
        else
          let r := retryCall probe delay (made + 1) tries
          (r.1, r.2.1 + delay, r.2.2)
    | some e => (made + 1, 0, some e)

/-- Embeds wait_for_pg_start of dbtesttools.engines.postgres, decorated with
retry(psycopg2.OperationalError, tries=60, delay=1). -/
def wait_for_pg_start (probe : Nat → Option PyExc) : Nat × Nat × Option PyExc :=
  retryCall probe 1 0 60

/-- Embeds the legacy wait_for_pg_start kept inside dbtesttools.fixtures,
decorated with retry(psycopg2.OperationalError, tries=30, delay=1). -/
def wait_for_pg_start_legacy (probe : Nat → Option PyExc) :
    Nat × Nat × Option PyExc :=
  retryCall probe 1 0 30

/-- A server that never accepts connections: every probe attempt raises
psycopg2.OperationalError. -/
def alwaysRefuse : Nat → Option PyExc := fun _ => some PyExc.operationalError

/-- Environment seen by PostgresContainerFixture.setUp in
dbtesttools.engines.postgres: the DBTESTTOOLS_USE_PODMAN variable, HOME, the
uid, whether sys.platform is darwin, and an oracle for os.path.exists. -/
structure PgEnv where
  usePodman : Option String
  home : String
  uid : Nat
  platformDarwin : Bool
  fileExists : String → Bool

/-- The podman socket URL computed by PostgresContainerFixture.setUp:
platform dependent (MacOS under HOME, Linux under /run/user/uid). -/
def podman_socket (env : PgEnv) : String :=
  if env.platformDarwin then
    "unix://" ++ env.home ++ "/.local/share/containers/podman/machine/podman.sock"
  else
    "unix:///run/user/" ++ toString env.uid ++ "/podman/podman.sock"

/-- Container work performed by PostgresContainerFixture.setUp after the
runtime socket has been resolved, in source order. -/
inductive SetUpStep where
  | dockerClientCreated
  | imagePulled
  | portAllocated
  | containerStarted
  | waitedForPgStart
  | testDatabaseCreated
  | engineCreated
  | killCleanupRegistered
deriving DecidableEq, Repr

/-- The full container work sequence of PostgresContainerFixture.setUp. -/
def containerWorkSteps : List SetUpStep :=
  [SetUpStep.dockerClientCreated, SetUpStep.imagePulled, SetUpStep.portAllocated,
   SetUpStep.containerStarted, SetUpStep.waitedForPgStart,
   SetUpStep.testDatabaseCreated, SetUpStep.engineCreated,
   SetUpStep.killCleanupRegistered]

/-- Embeds PostgresContainerFixture.setUp of dbtesttools.engines.postgres up
to the level of its step sequence. When DBTESTTOOLS_USE_PODMAN equals "1",
the podman socket path (with the unix:// scheme stripped) is probed with
os.path.exists: if present, DOCKER_HOST is overridden and the container work
proceeds; if absent, FileNotFoundError is raised before any container work.
Returns (steps performed, DOCKER_HOST override or error). -/
def pg_set_up (env : PgEnv) : List SetUpStep × Except PyExc (Option String) :=
  if env.usePodman = some "1" then
    if env.fileExists ((podman_socket env).replace "unix://" "") then
      (containerWorkSteps, Except.ok (some (podman_socket env)))
    else
      ([], Except.error PyExc.fileNotFoundError)
  else
    (containerWorkSteps, Except.ok none)

/-- A concrete environment in which podman is requested and no socket file
exists anywhere. -/
def noSocketEnv : PgEnv :=
  { usePodman := some "1", home := "/home/user", uid := 1000,
    platformDarwin := false, fileExists := fun _ => false }

/-- Distinguishing class-level traits of the two PostgresContainerFixture
definitions in the repository. -/
structure PgClassTraits where
  retryTries : Nat
  retryDelay : Nat
  randomNameSuffix : Bool
  pidCounterNameSuffix : Bool
  podmanSupport : Bool
  ipAddressOverride : Bool
  defaultImage : String
deriving DecidableEq, Repr

/-- Traits of the legacy PostgresContainerFixture class defined inside
dbtesttools.fixtures: readiness retry budget of 30 attempts, container name
suffixed with a random integer, no podman socket support, no ip address
override. -/
def legacyPostgresTraits : PgClassTraits :=
  { retryTries := 30, retryDelay := 1, randomNameSuffix := true,
    pidCounterNameSuffix := false, podmanSupport := false,
    ipAddressOverride := false, defaultImage := "postgres:11.11-alpine" }

/-- Traits of the PostgresContainerFixture class defined in
dbtesttools.engines.postgres: 60 attempts, container name suffixed with the
process id and a monotonic counter, podman socket support, ip address
override support. -/
def enginesPostgresTraits : PgClassTraits :=
  { retryTries := 60, retryDelay := 1, randomNameSuffix := false,
    pidCounterNameSuffix := true, podmanSupport := true,
    ipAddressOverride := true, defaultImage := "postgres:16.3-alpine" }

/-- An engine fixture class resolvable as an attribute of the
dbtesttools.fixtures module. -/
inductive EngineClass where
  | sqliteMemory
  | postgresContainer (traits : PgClassTraits)
deriving DecidableEq, Repr

/-- Embeds getattr on the dbtesttools.fixtures module, restricted to the
engine fixture classes defined at its top level. pick_engine_fixture looks
the name up on sys.modules of the fixtures module itself, so the name
PostgresContainerFixture resolves to the legacy class defined in fixtures.py,
never to dbtesttools.engines.postgres. Names that are not attributes of the
module yield none, which getattr turns into AttributeError. -/
def fixtures_module_engine_class (name : String) : Option EngineClass :=
  if name = "SqliteMemoryFixture" then some EngineClass.sqliteMemory
  else if name = "PostgresContainerFixture" then
    some (EngineClass.postgresContainer legacyPostgresTraits)
  else none

/-- Embeds DatabaseResource.pick_engine_fixture (fixtures.py): the
TEST_ENGINE_FIXTURE environment variable, when set, replaces the configured
name; the effective name is then resolved by attribute lookup on the
dbtesttools.fixtures module, raising AttributeError when it is absent. -/
def pick_engine_fixture (envName : Option String) (configuredName : String) :
    Except PyExc EngineClass :=
  match fixtures_module_engine_class (envName.getD configuredName) with
  | some cls => Except.ok cls
  | none => Except.error PyExc.attributeError

/-- Embeds the Python str.split method with a single character separator, on
the character list of the string: splitting never drops segments, the empty
string splits to one empty segment, and a trailing separator yields a
trailing empty segment. -/
def pySplitChar (sep : Char) : List Char → List (List Char)
  | [] => [[]]
  | c :: cs =>
    if c = sep then [] :: pySplitChar sep cs
    else
      match pySplitChar sep cs with
      | [] => [[c]]
      | seg :: rest => (c :: seg) :: rest

/-- The ASCII whitespace characters stripped by the Python str.strip method
(the bootstrap scripts in the source contain only ASCII). -/
def isPySpace (c : Char) : Bool :=
  c = ' ' || c = '\t' || c = '\n' || c = '\r' || c = '\x0b' || c = '\x0c'

/-- Truthiness of stmt.strip() in the set_up_test_database loop: the stripped
string is non empty exactly when some character is not whitespace. -/
def pyStripTruthy (cs : List Char) : Bool :=
  cs.any fun c => !(isPySpace c)

/-- Embeds the statement loop of set_up_test_database: the for loop over
init_sql.split on the semicolon executes cur.execute(stmt) exactly when
stmt.strip() is truthy, accumulating the executed statements in order. -/
def executed_in_loop (segs : List (List Char)) : List (List Char) :=
  segs.foldl (fun acc stmt => if pyStripTruthy stmt then acc ++ [stmt] else acc) []

/-- The statements set_up_test_database actually executes against the
administrative connection, given the bootstrap script. -/
def set_up_test_database_stmts (initSql : List Char) : List (List Char) :=
  executed_in_loop (pySplitChar ';' initSql)

/-! Helper lemmas shared by several claim theorems. -/

/-- On a savepoint capable engine, rollback_transaction only rolls back the
supplied transaction handle and leaves the resource state untouched. -/
theorem rollback_transaction_savepoint (r : DatabaseResource)
    (h : r.dbHasSavepoint = true) :
    rollback_transaction r = (r, [Effect.txnRollback]) := by
  simp [rollback_transaction, h]

/-- Every session id emitted by a run over a savepoint capable resource is at
least the next value of the iterator at the start of the run. -/
theorem run_session_ids_lower_bound (ops : List ResOp) :
    ∀ r : DatabaseResource, r.dbHasSavepoint = true →
      ∀ x ∈ run_session_ids r ops, r.sessionIdNext ≤ x := by
  induction ops with
  | nil =>
      intro r _ x hx
      simp [run_session_ids] at hx
  | cons op rest ih =>
      intro r hr x hx
      cases op with
      | nextId =>
          rw [run_session_ids] at hx
          rcases List.mem_cons.mp hx with h1 | h2
          · simp [next_session_id] at h1
            omega
          · have hb := ih (next_session_id r).2 (by simp [next_session_id, hr]) x h2
            simp [next_session_id] at hb
            omega
      | rollback =>
          rw [run_session_ids, rollback_transaction_savepoint r hr] at hx
          exact ih r hr x hx

/-- Session ids emitted over a savepoint capable resource are pairwise
strictly increasing. -/
theorem run_session_ids_pairwise (ops : List ResOp) :
    ∀ r : DatabaseResource, r.dbHasSavepoint = true →
      List.Pairwise (· < ·) (run_session_ids r ops) := by
  induction ops with
  | nil =>
      intro r _
      simp [run_session_ids]
  | cons op rest ih =>
      intro r hr
      cases op with
      | nextId =>
          rw [run_session_ids]
          refine List.pairwise_cons.mpr ⟨?_, ih (next_session_id r).2 (by simp [next_session_id, hr])⟩
          intro x hx
          have hb := run_session_ids_lower_bound rest (next_session_id r).2
            (by simp [next_session_id, hr]) x hx
          simp [next_session_id] at hb ⊢
          omega
      | rollback =>
          rw [run_session_ids, rollback_transaction_savepoint r hr]
          exact ih r hr

/-- The executed statement loop of set_up_test_database is, for any starting
accumulator, the accumulator extended with the truthy segments in order. -/
theorem executed_in_loop_go (segs : List (List Char)) :
    ∀ acc : List (List Char),
      segs.foldl (fun a stmt => if pyStripTruthy stmt then a ++ [stmt] else a) acc
        = acc ++ segs.filter pyStripTruthy := by
  induction segs with
  | nil => intro acc; simp
  | cons s rest ih =>
      intro acc
      rw [List.foldl_cons, List.filter_cons]
      by_cases h : pyStripTruthy s = true
      · rw [if_pos h, ih, if_pos h, List.append_assoc, List.singleton_append]
      · rw [if_neg h, ih, if_neg h]

/-- Splitting never returns an empty segment list. -/
theorem pySplitChar_ne_nil (sep : Char) (cs : List Char) :
    pySplitChar sep cs ≠ [] := by
  cases cs with
  | nil => simp [pySplitChar]
  | cons c cs =>
      rw [pySplitChar]
      by_cases h : c = sep
      · simp [h]
      · rw [if_neg h]
        split <;> simp

/-- A trailing separator adds exactly one trailing empty segment to the
split. -/
theorem pySplitChar_append_sep (sep : Char) (cs : List Char) :
    pySplitChar sep (cs ++ [sep]) = pySplitChar sep cs ++ [[]] := by
  induction cs with
  | nil => simp [pySplitChar]
  | cons c rest ih =>
      by_cases h : c = sep
      · rw [List.cons_append, pySplitChar, if_pos h, ih, pySplitChar, if_pos h,
          List.cons_append]
      · rw [List.cons_append, pySplitChar, if_neg h, ih]
        rw [pySplitChar, if_neg h]
        rcases hs : pySplitChar sep rest with _ | ⟨seg, segs⟩
        · exact absurd hs (pySplitChar_ne_nil sep rest)
        · simp

/-! Claim theorems. -/

/-- Claim C2: on a resource whose active engine fixture has
has_savepoint = true, rollback_transaction rolls back the supplied outer
transaction handle and changes nothing else: the whole resource state, hence
the engine fixture identity, the server process, the schema and the session
id counter, is left unchanged and no rebuild occurs. -/
theorem rollback_savepoint_frame (r : DatabaseResource)
    (h : r.dbHasSavepoint = true) :
    (rollback_transaction r).1 = r ∧
      (rollback_transaction r).2 = [Effect.txnRollback] := by
  rw [rollback_transaction_savepoint r h]
  exact ⟨rfl, rfl⟩

/-- Witness for claim C2 at a concrete savepoint capable resource. -/
theorem rollback_savepoint_frame_witness :
    (rollback_transaction (make_resource true)).1 = make_resource true ∧
      (rollback_transaction (make_resource true)).2 = [Effect.txnRollback] :=
  rollback_savepoint_frame (make_resource true) (by decide)

/-- Claim C3: on a resource whose active engine fixture has
has_savepoint = false, rollback_transaction first runs the fixture teardown,
and only when cleanups are pending, then re-runs the engine initialization
sequence: the new engine fixture has a fresh identity, the server and the
schema belong to that new fixture, and the session id counter is reset to 1
(the next emitted id being 2). -/
theorem rollback_rebuild (r : DatabaseResource)
    (h : r.dbHasSavepoint = false) (hfresh : r.dbId < r.freshId) :
    (rollback_transaction r).2 =
        (if r.dbCleanups ≠ 0 then [Effect.fixtureCleanUp] else [])
          ++ [Effect.fixtureSetUp, Effect.tablesCreated] ∧
      (rollback_transaction r).1.dbId ≠ r.dbId ∧
      (rollback_transaction r).1.serverId = (rollback_transaction r).1.dbId ∧
      (rollback_transaction r).1.schemaOnDb = (rollback_transaction r).1.dbId ∧
      (rollback_transaction r).1.sessionId = 1 ∧
      (rollback_transaction r).1.sessionIdNext = 2 := by
  by_cases hc : r.dbCleanups = 0
  · simp [rollback_transaction, h, hc, init_engine, clean_up_fixture]
    omega
  · simp [rollback_transaction, h, hc, init_engine, clean_up_fixture]
    omega

/-- Witness for claim C3 at a concrete savepoint incapable resource. -/
theorem rollback_rebuild_witness :
    (rollback_transaction (make_resource false)).2 =
        (if (make_resource false).dbCleanups ≠ 0 then [Effect.fixtureCleanUp] else [])
          ++ [Effect.fixtureSetUp, Effect.tablesCreated] ∧
      (rollback_transaction (make_resource false)).1.dbId ≠ (make_resource false).dbId ∧
      (rollback_transaction (make_resource false)).1.serverId
        = (rollback_transaction (make_resource false)).1.dbId ∧
      (rollback_transaction (make_resource false)).1.schemaOnDb
        = (rollback_transaction (make_resource false)).1.dbId ∧
      (rollback_transaction (make_resource false)).1.sessionId = 1 ∧
      (rollback_transaction (make_resource false)).1.sessionIdNext = 2 :=
  rollback_rebuild (make_resource false) (by decide) (by decide)

/-- Claim C4 counterexample: session ids are not strictly increasing across
an interleaved rollback_transaction on a savepoint incapable engine, because
the rebuild resets the session id iterator to count(1). The concrete trace
next, rollback, next over a freshly made sqlite backed resource returns the
value 2 twice. -/
theorem session_ids_repeat_after_rebuild :
    run_session_ids (make_resource false) [ResOp.nextId, ResOp.rollback, ResOp.nextId]
        = [2, 2] ∧
      ¬ List.Pairwise (· < ·)
        (run_session_ids (make_resource false) [ResOp.nextId, ResOp.rollback, ResOp.nextId]) := by
  constructor
  · decide
  · decide

/-- Claim C4 amended: over the lifetime of one resource whose engine fixture
supports savepoints, the values returned by next_session_id form a strictly
increasing sequence with no repeated value, regardless of interleaved
rollback_transaction calls; when the engine does not support savepoints an
interleaved rollback rebuilds the engine and resets the counter to 1, so the
returned values can repeat. -/
theorem session_ids_strictly_increasing (r : DatabaseResource)
    (h : r.dbHasSavepoint = true) (ops : List ResOp) :
    List.Pairwise (· < ·) (run_session_ids r ops) ∧
      (run_session_ids r ops).Nodup := by
  have hp := run_session_ids_pairwise ops r h
  exact ⟨hp, hp.imp fun hlt => Nat.ne_of_lt hlt⟩

/-- Witness for the amended claim C4 on a concrete resource and trace. -/
theorem session_ids_strictly_increasing_witness :
    List.Pairwise (· < ·)
        (run_session_ids (make_resource true)
          [ResOp.nextId, ResOp.rollback, ResOp.nextId, ResOp.nextId]) ∧
      (run_session_ids (make_resource true)
          [ResOp.nextId, ResOp.rollback, ResOp.nextId, ResOp.nextId]).Nodup :=
  session_ids_strictly_increasing (make_resource true) (by decide)
    [ResOp.nextId, ResOp.rollback, ResOp.nextId, ResOp.nextId]

/-- Claim C5: during SessionFixture.clean_session, an OperationalError (the
class raised by a rollback of an already gone savepoint) raised while closing
the session is swallowed, and teardown still performs the rollback or
rebuild, returns the checked out connection to the pool, and bumps the
session id, exactly as on a clean close; any exception of another class
raised during teardown propagates to the caller. -/
theorem clean_session_error_policy (r : DatabaseResource) (e : PyExc)
    (he : e ≠ PyExc.operationalError) :
    clean_session (CloseOutcome.raises PyExc.operationalError) r
        = clean_session CloseOutcome.ok r ∧
      clean_session (CloseOutcome.raises PyExc.operationalError) r
        = Except.ok ((next_session_id (rollback_transaction r).1).2,
            CleanStep.sessionCloseTried ::
              (rollback_transaction r).2.map CleanStep.rollbackStep
                ++ [CleanStep.connectionClose, CleanStep.sessionIdBump]) ∧
      (next_session_id (rollback_transaction r).1).2.sessionIdNext
        = (rollback_transaction r).1.sessionIdNext + 1 ∧
      clean_session (CloseOutcome.raises e) r = Except.error e := by
  refine ⟨rfl, rfl, rfl, ?_⟩
  cases e with
  | operationalError => exact absurd rfl he
  | attributeError => rfl
  | fileNotFoundError => rfl
  | imageNotFound => rfl
  | startupTimeoutError => rfl
  | configurationError => rfl
  | unknownEngineDriver => rfl
  | otherExc n => rfl

/-- Witness for claim C5: at a concrete resource, a non OperationalError
raised at session close propagates unchanged. -/
theorem clean_session_error_policy_witness :
    clean_session (CloseOutcome.raises PyExc.attributeError) (make_resource true)
      = Except.error PyExc.attributeError :=
  (clean_session_error_policy (make_resource true) PyExc.attributeError
    (by decide)).2.2.2

/-- Claim C1 counterexample: in future (v2) mode the restart_savepoint
handler never expires session state. At the event of a nested transaction
ending with a non nested parent, with the tracked savepoint inactive, the
handler opens a new savepoint but does not discard stale in memory object
state, so the claim as stated over every session fails. -/
theorem restart_savepoint_claim_fails_in_future_mode :
    ¬ ((restart_savepoint true false { nested := true, parentNested := false }).expireAll = true ∧
        (restart_savepoint true false { nested := true, parentNested := false }).beganNested = true) := by
  decide

/-- Claim C1 amended: in legacy (non future) mode, whenever a nested
transaction ends whose immediate parent is the outer non nested transaction,
the handler discards stale in memory object state (expire_all) and
immediately begins a new savepoint; in future mode the handler instead
begins a new connection level savepoint exactly when the tracked savepoint
is no longer active, without expiring session state, so that in both modes a
savepoint is active once the handler returns. -/
theorem restart_savepoint_amended (active : Bool) (t : TxnEnd)
    (hn : t.nested = true) (hp : t.parentNested = false) :
    restart_savepoint false active t = { expireAll := true, beganNested := true } ∧
      restart_savepoint true false t = { expireAll := false, beganNested := true } ∧
      restart_savepoint true true t = { expireAll := false, beganNested := false } ∧
      (∀ a : Bool, (a || (restart_savepoint true a t).beganNested) = true) := by
  refine ⟨by simp [restart_savepoint, hn, hp], rfl, rfl, ?_⟩
  intro a
  cases a with
  | false => rfl
  | true => rfl

/-- Witness for the amended claim C1 at a concrete event. -/
theorem restart_savepoint_amended_witness :
    restart_savepoint false false { nested := true, parentNested := false }
      = { expireAll := true, beganNested := true } :=
  (restart_savepoint_amended false { nested := true, parentNested := false }
    rfl rfl).1

/-- For a probe that refuses on every attempt, the retry combinator with unit
delay makes exactly tries attempts, sleeps tries minus one units, and
re-raises the final OperationalError unchanged. -/
theorem retryCall_alwaysRefuse :
    ∀ tries made : Nat,
      retryCall alwaysRefuse 1 made (tries + 1)
        = (made + tries + 1, tries, some PyExc.operationalError) := by
  intro tries
  induction tries with
  | zero =>
      intro made
      simp [retryCall, alwaysRefuse]
  | succ t ih =>
      intro made
      rw [retryCall]
      simp only [alwaysRefuse]
      rw [if_neg (Nat.succ_ne_zero t), ih (made + 1)]
      show (made + 1 + t + 1, t + 1, some PyExc.operationalError)
          = (made + (t + 1) + 1, t + 1, some PyExc.operationalError)
      have harith : made + 1 + t + 1 = made + (t + 1) + 1 := by omega
      rw [harith]

/-- Claim C6 counterexample: when the server never accepts connections,
wait_for_pg_start terminates after exactly its 60 attempt budget with 59 unit
delays, but what it raises is the retried OperationalError itself, not a
distinct StartupTimeoutError; no such class exists in the source tree. -/
theorem wait_for_pg_start_not_timeout_error :
    wait_for_pg_start alwaysRefuse = (60, 59, some PyExc.operationalError) ∧
      (wait_for_pg_start alwaysRefuse).2.2 ≠ some PyExc.startupTimeoutError := by
  constructor
  · decide
  · decide

/-- Claim C6 amended: if the container server never accepts connections, the
readiness probe retries the transient operational failure class with a fixed
unit delay up to a bounded number of attempts (60 in
dbtesttools.engines.postgres, 30 in the legacy copy in dbtesttools.fixtures)
and then terminates by re-raising the last OperationalError; it does not hang
indefinitely, but the error finally raised is the operational failure class
itself, there being no StartupTimeoutError in the code. -/
theorem wait_for_pg_start_bounded (probe : Nat → Option PyExc)
    (h : ∀ n, probe n = some PyExc.operationalError) :
    wait_for_pg_start probe = (60, 59, some PyExc.operationalError) ∧
      wait_for_pg_start_legacy probe = (30, 29, some PyExc.operationalError) := by
  have hp : probe = alwaysRefuse := funext fun n => by rw [h n]; rfl
  subst hp
  exact ⟨retryCall_alwaysRefuse 59 0, retryCall_alwaysRefuse 29 0⟩

/-- Witness for the amended claim C6 at the concrete always refusing probe. -/
theorem wait_for_pg_start_bounded_witness :
    wait_for_pg_start alwaysRefuse = (60, 59, some PyExc.operationalError) ∧
      wait_for_pg_start_legacy alwaysRefuse = (30, 29, some PyExc.operationalError) :=
  wait_for_pg_start_bounded alwaysRefuse (fun _ => rfl)

/-- Claim C7 counterexample: when the driver name resolves to no attribute of
the dbtesttools.fixtures module, pick_engine_fixture fails with the
reflection failure AttributeError, not with a typed UnknownEngineDriver (no
such class exists in the source tree). -/
theorem pick_engine_unknown_counterexample :
    pick_engine_fixture none "NoSuchEngineFixture"
        = Except.error PyExc.attributeError ∧
      pick_engine_fixture none "NoSuchEngineFixture"
        ≠ Except.error PyExc.unknownEngineDriver := by
  refine ⟨rfl, ?_⟩
  intro hc
  rw [show pick_engine_fixture none "NoSuchEngineFixture"
      = Except.error PyExc.attributeError from rfl] at hc
  injection hc with h2
  exact PyExc.noConfusion h2

/-- Claim C7 amended: when the configured driver name, or the name supplied
via the TEST_ENGINE_FIXTURE environment variable which takes precedence,
does not resolve to an attribute of the dbtesttools.fixtures module, the
acquire operation fails with the attribute lookup failure AttributeError
rather than a typed UnknownEngineDriver. -/
theorem pick_engine_unknown_raises_attribute_error (envName : Option String)
    (configuredName : String)
    (h : fixtures_module_engine_class (envName.getD configuredName) = none) :
    pick_engine_fixture envName configuredName
        = Except.error PyExc.attributeError ∧
      (∀ n : String, pick_engine_fixture (some n) configuredName
          = pick_engine_fixture none n) := by
  refine ⟨?_, fun n => rfl⟩
  unfold pick_engine_fixture
  rw [h]

/-- Witness for the amended claim C7 at a concrete unresolvable name. -/
theorem pick_engine_unknown_raises_attribute_error_witness :
    pick_engine_fixture none "AbsentEngineFixture"
        = Except.error PyExc.attributeError :=
  (pick_engine_unknown_raises_attribute_error none "AbsentEngineFixture" rfl).1

/-- Claim C8 counterexample: with DBTESTTOOLS_USE_PODMAN set to "1" and no
runtime socket file present, PostgresContainerFixture.setUp raises
FileNotFoundError, not a ConfigurationError (no such class exists in the
source tree), although it does fail before any container work. -/
theorem pg_setup_error_class_counterexample :
    pg_set_up noSocketEnv = ([], Except.error PyExc.fileNotFoundError) ∧
      (pg_set_up noSocketEnv).2 ≠ Except.error PyExc.configurationError := by
  refine ⟨rfl, ?_⟩
  intro hc
  rw [show (pg_set_up noSocketEnv).2
      = Except.error PyExc.fileNotFoundError from rfl] at hc
  injection hc with h2
  exact PyExc.noConfusion h2

/-- Claim C8 amended: during container variant setUp, when the environment
toggle DBTESTTOOLS_USE_PODMAN is "1" and the platform specific runtime
socket file does not exist, setUp fails fast with FileNotFoundError before
any container work: no docker client is created, no image pull, port
allocation or server launch is attempted. -/
theorem pg_setup_podman_socket_missing (env : PgEnv)
    (hp : env.usePodman = some "1")
    (hf : env.fileExists ((podman_socket env).replace "unix://" "") = false) :
    pg_set_up env = ([], Except.error PyExc.fileNotFoundError) := by
  simp [pg_set_up, hp, hf]

/-- Witness for the amended claim C8 at a concrete environment. -/
theorem pg_setup_podman_socket_missing_witness :
    pg_set_up noSocketEnv = ([], Except.error PyExc.fileNotFoundError) :=
  pg_setup_podman_socket_missing noSocketEnv rfl rfl

/-- Claim C9: executing a bootstrap script runs exactly the segments obtained
by splitting on the semicolon whose stripped content is non empty, in their
original order; blank segments are never executed, and a trailing empty
statement after the final semicolon changes nothing about what runs, so such
a script does not raise. -/
theorem set_up_test_database_executes_nonblank (initSql : List Char) :
    set_up_test_database_stmts initSql
        = (pySplitChar ';' initSql).filter pyStripTruthy ∧
      (∀ stmt ∈ set_up_test_database_stmts initSql, pyStripTruthy stmt = true) ∧
      set_up_test_database_stmts (initSql ++ [';'])
        = set_up_test_database_stmts initSql := by
  have hgo := executed_in_loop_go (pySplitChar ';' initSql) []
  have heq : set_up_test_database_stmts initSql
      = (pySplitChar ';' initSql).filter pyStripTruthy := by
    rw [set_up_test_database_stmts, executed_in_loop, hgo, List.nil_append]
  refine ⟨heq, ?_, ?_⟩
  · intro stmt hs
    rw [heq] at hs
    exact List.of_mem_filter hs
  · have hgo2 := executed_in_loop_go (pySplitChar ';' (initSql ++ [';'])) []
    rw [set_up_test_database_stmts, executed_in_loop, hgo2, List.nil_append,
      pySplitChar_append_sep, List.filter_append, heq]
    simp [pyStripTruthy]

/-- Witness for claim C9 at a concrete bootstrap script with a trailing
semicolon. -/
theorem set_up_test_database_executes_nonblank_witness :
    pyStripTruthy "CREATE DATABASE testing".toList = true :=
  (set_up_test_database_executes_nonblank "CREATE DATABASE testing;".toList).2.1
    "CREATE DATABASE testing".toList (by decide)

/-- Claim C10: pick_engine_fixture resolves the driver name by attribute
lookup on the dbtesttools.fixtures module itself, so the name
PostgresContainerFixture always instantiates the legacy class defined inside
dbtesttools.fixtures (30 readiness attempts, random integer name suffix) and
never the class defined in dbtesttools.engines.postgres (60 attempts, pid
and counter name suffix, podman socket and ip address override support). -/
theorem pick_postgres_resolves_legacy (envName : Option String)
    (configuredName : String)
    (h : envName.getD configuredName = "PostgresContainerFixture") :
    pick_engine_fixture envName configuredName
        = Except.ok (EngineClass.postgresContainer legacyPostgresTraits) ∧
      legacyPostgresTraits.retryTries = 30 ∧
      legacyPostgresTraits.randomNameSuffix = true ∧
      enginesPostgresTraits.retryTries = 60 ∧
      enginesPostgresTraits.pidCounterNameSuffix = true ∧
      legacyPostgresTraits ≠ enginesPostgresTraits ∧
      (∀ name : String, fixtures_module_engine_class name
          ≠ some (EngineClass.postgresContainer enginesPostgresTraits)) := by
  refine ⟨?_, rfl, rfl, rfl, rfl, by decide, ?_⟩
  · unfold pick_engine_fixture
    rw [h]
    rfl
  · intro name hc
    unfold fixtures_module_engine_class at hc
    split at hc
    · simp at hc
    · split at hc
      · simp only [Option.some.injEq, EngineClass.postgresContainer.injEq] at hc
        exact absurd hc (by decide)
      · exact Option.noConfusion hc

/-- Witness for claim C10: the environment variable name wins and resolves to
the legacy class. -/
theorem pick_postgres_resolves_legacy_witness :
    pick_engine_fixture (some "PostgresContainerFixture") "SqliteMemoryFixture"
      = Except.ok (EngineClass.postgresContainer legacyPostgresTraits) :=
  (pick_postgres_resolves_legacy (some "PostgresContainerFixture")
    "SqliteMemoryFixture" rfl).1

end DbTestTools
